import Mathlib

/-!
Verification development for the image-to-3D job submission and
status-tracking service (FastAPI backend, `src/backend`).

The embedding below translates the two HTTP handlers of
`src/backend/app/endpoints/trellis/router.py` (`generate_3d_asset`,
`get_generation_status`) and `src/backend/main.py` (`generate_3d`)
into pure Lean functions.  The external pieces that the routers
consume — the Redis-backed status store (`redis_service.set_json` /
`get_json`, repository code not present under `src/`) and the external
Trellis generation engine (`trellis_service.generate_3d_asset`) — are
modelled explicitly: the store from the spec's stated `SET key value
EX 3600` / `GET key` contract, and the engine as an opaque parameter
function returning a result bundle or a failure reason.

Python exception flow in the submission handler (everything between
`try:` and `except Exception`) is made explicit: each status write may
either succeed or raise, and a raise anywhere inside the `try` block
transfers control to the handler, exactly as in the source.
-/

/-- JSON-like values appearing in status records and engine outputs:
strings, integers, `null` (Python `None`), and string arrays (the shape
of `no_background_images`). -/
inductive JVal where
  | str (s : String)
  | num (n : Int)
  | null
  | arr (xs : List String)
deriving DecidableEq, Repr

/-- A JSON object as an association list of fields, in source order. -/
abbrev JObj := List (String × JVal)

/-- Python `dict.get(key)` with an explicit default (`dict.get(key, d)`);
returns the stored value when the key is present, the default otherwise. -/
def jgetD (o : JObj) (k : String) (d : JVal) : JVal :=
  match o.lookup k with
  | some v => v
  | none => d

/-- Field lookup on a record, `none` when the field is absent. -/
def jget (o : JObj) (k : String) : Option JVal :=
  o.lookup k

/-- The status store: entries of key, payload and absolute expiry time. -/
abbrev RedisStore := List (String × JObj × Nat)

/-- Modelled from the spec: the status store's write operation
(`redis_service.set_json`, repository code not under `src/`), specified
as `SET key value EX ex` — the value at `key` is unconditionally
replaced and its expiry set `ex` seconds from `now`. -/
def storeSet (st : RedisStore) (key : String) (payload : JObj) (now ex : Nat) : RedisStore :=
  (key, payload, now + ex) :: st.filter (fun e => e.1 != key)

/-- Modelled from the spec: the status store's read operation
(`redis_service.get_json`, repository code not under `src/`), specified
as `GET key` — returns the stored value while it has not expired,
nothing when the key is absent or its expiry has passed. -/
def storeGet (st : RedisStore) (key : String) (now : Nat) : Option JObj :=
  match st.lookup key with
  | some (payload, exp) => if now < exp then some payload else none
  | none => none

/-- `STATUS_KEY = "trellis_status:current"` — the single fixed status key. -/
def STATUS_KEY : String := "trellis_status:current"

/-- `_set_status(payload)`: `redis_service.set_json(STATUS_KEY, payload, ex=3600)`. -/
def set_status (st : RedisStore) (payload : JObj) (now : Nat) : RedisStore :=
  storeSet st STATUS_KEY payload now 3600

/-- `Generate3DRequest` (router.py): the request model with its
pydantic field defaults.  Python floats are embedded as rationals. -/
structure Generate3DRequest where
  images : List String
  seed : Int := 1337
  randomize_seed : Bool := false
  texture_size : Int := 2048
  mesh_simplify : Rat := 0.96
  generate_color : Bool := true
  generate_normal : Bool := false
  generate_model : Bool := true
  save_gaussian_ply : Bool := false
  return_no_background : Bool := true
  ss_sampling_steps : Int := 26
  ss_guidance_strength : Rat := 8.0
  slat_sampling_steps : Int := 26
  slat_guidance_strength : Rat := 3.2
deriving DecidableEq, Repr

/-- The keyword-argument bundle passed to
`trellis_service.generate_3d_asset(...)` at the call site. -/
structure EngineArgs where
  images : List String
  seed : Int
  randomize_seed : Bool
  texture_size : Int
  mesh_simplify : Rat
  generate_color : Bool
  generate_normal : Bool
  generate_model : Bool
  save_gaussian_ply : Bool
  return_no_background : Bool
  ss_sampling_steps : Int
  ss_guidance_strength : Rat
  slat_sampling_steps : Int
  slat_guidance_strength : Rat
deriving DecidableEq, Repr

/-- The argument bundle built at router.py lines 58–73: every request
field forwarded by name, unmodified. -/
def engineArgs (r : Generate3DRequest) : EngineArgs :=
  { images := r.images
    seed := r.seed
    randomize_seed := r.randomize_seed
    texture_size := r.texture_size
    mesh_simplify := r.mesh_simplify
    generate_color := r.generate_color
    generate_normal := r.generate_normal
    generate_model := r.generate_model
    save_gaussian_ply := r.save_gaussian_ply
    return_no_background := r.return_no_background
    ss_sampling_steps := r.ss_sampling_steps
    ss_guidance_strength := r.ss_guidance_strength
    slat_sampling_steps := r.slat_sampling_steps
    slat_guidance_strength := r.slat_guidance_strength }

/-- Outcome of one HTTP handler invocation: a 200 response carrying the
engine output, a raised `HTTPException(status_code, detail)`, or an
uncaught exception propagating out of the handler. -/
inductive Result where
  | ok (out : JObj)
  | httpError (code : Nat) (detail : String)
  | raised (msg : String)
deriving DecidableEq, Repr

/-- Observable steps of a submission: a status-write attempt (with
whether it succeeded) and the engine invocation with its arguments. -/
inductive Event where
  | statusWrite (payload : JObj) (succeeded : Bool)
  | engineCall (args : EngineArgs)
deriving DecidableEq, Repr

/-- Whether an event is the engine invocation. -/
def isEngineCall : Event → Bool
  | Event.engineCall _ => true
  | _ => false

/-- Whether an event is a status-write attempt whose payload has
message field `m`. -/
def isWriteWithMessage (ev : Event) (m : String) : Bool :=
  match ev with
  | Event.statusWrite p _ => jget p "message" == some (JVal.str m)
  | _ => false

/-- Fault injection for the three `_set_status` calls of the submission
handler: `none` means the store write succeeds, `some m` means it
raises an exception with message `m`. -/
structure Faults where
  procWrite : Option String
  doneWrite : Option String
  errWrite : Option String
deriving DecidableEq, Repr

/-- All store writes succeed. -/
def noFaults : Faults := ⟨none, none, none⟩

/-- The record written before the engine call (router.py lines 50–56). -/
def processingRecord : JObj :=
  [("status", JVal.str "processing"),
   ("progress", JVal.num 5),
   ("message", JVal.str "Submitting job to Trellis…")]

/-- The record written on success (router.py lines 75–84): a fixed
subset of the engine output is mirrored, `output.get` defaulting to
`None` for `model_file` / `color_video` and to `[]` for
`no_background_images`. -/
def completeRecord (output : JObj) : JObj :=
  [("status", JVal.str "complete"),
   ("progress", JVal.num 100),
   ("message", JVal.str "3D model generated successfully!"),
   ("model_file", jgetD output "model_file" JVal.null),
   ("color_video", jgetD output "color_video" JVal.null),
   ("no_background_images", jgetD output "no_background_images" (JVal.arr []))]

/-- The record written by the exception handler (router.py lines 89–95). -/
def errorRecord (reason : String) : JObj :=
  [("status", JVal.str "error"),
   ("progress", JVal.num 0),
   ("message", JVal.str (String.append "Generation failed: " reason))]

/-- The default record returned when no status is stored. -/
def idleRecord : JObj :=
  [("status", JVal.str "idle"),
   ("progress", JVal.num 0),
   ("message", JVal.str "No generation started")]

/-- One handler run: HTTP-level outcome, final store state, and the
ordered trace of observable steps. -/
structure RunResult where
  result : Result
  store : RedisStore
  trace : List Event
deriving DecidableEq, Repr

/-- The `except Exception` block of `generate_3d_asset` (router.py
lines 86–96): write the error record — if that write itself raises,
the new exception propagates uncaught — then raise
`HTTPException(500, "Failed to generate 3D asset: <reason>")`. -/
def handleException (reason : String) (faults : Faults) (st : RedisStore) (now : Nat)
    (tr : List Event) : RunResult :=
  match faults.errWrite with
  | some m =>
      { result := Result.raised m
        store := st
        trace := tr ++ [Event.statusWrite (errorRecord reason) false] }
  | none =>
      { result := Result.httpError 500 (String.append "Failed to generate 3D asset: " reason)
        store := set_status st (errorRecord reason) now
        trace := tr ++ [Event.statusWrite (errorRecord reason) true] }

/-- `POST /trellis/generate` (`generate_3d_asset`, router.py lines
32–96).  The `try` block writes the processing record, invokes the
engine with the forwarded arguments, writes the complete record and
returns the output; an exception raised at any of these three steps
transfers control to `handleException`. -/
def generate_3d_asset (req : Generate3DRequest) (engine : EngineArgs → Except String JObj)
    (faults : Faults) (st : RedisStore) (now : Nat) : RunResult :=
  match faults.procWrite with
  | some e => handleException e faults st now [Event.statusWrite processingRecord false]
  | none =>
    let st1 := set_status st processingRecord now
    match engine (engineArgs req) with
    | Except.error e =>
        handleException e faults st1 now
          [Event.statusWrite processingRecord true, Event.engineCall (engineArgs req)]
    | Except.ok output =>
        match faults.doneWrite with
        | some e =>
            handleException e faults st1 now
              [Event.statusWrite processingRecord true, Event.engineCall (engineArgs req),
               Event.statusWrite (completeRecord output) false]
        | none =>
            { result := Result.ok output
              store := set_status st1 (completeRecord output) now
              trace := [Event.statusWrite processingRecord true,
                        Event.engineCall (engineArgs req),
                        Event.statusWrite (completeRecord output) true] }

/-- `GET /trellis/status` (`get_generation_status`, router.py lines
99–107): fetch the stored record; if it is falsy (absent or an empty
object, Python `if not status`) return the idle default, otherwise
return it verbatim. -/
def get_generation_status (st : RedisStore) (now : Nat) : JObj :=
  match storeGet st STATUS_KEY now with
  | none => idleRecord
  | some s => if s.isEmpty then idleRecord else s

/-- `TrellisRequest` (main.py lines 8–22): the secondary service
variant's request model, field-for-field the same as
`Generate3DRequest`. -/
structure TrellisRequest where
  images : List String
  seed : Int := 1337
  randomize_seed : Bool := false
  texture_size : Int := 2048
  mesh_simplify : Rat := 0.96
  generate_color : Bool := true
  generate_normal : Bool := false
  generate_model : Bool := true
  save_gaussian_ply : Bool := false
  return_no_background : Bool := true
  ss_sampling_steps : Int := 26
  ss_guidance_strength : Rat := 8.0
  slat_sampling_steps : Int := 26
  slat_guidance_strength : Rat := 3.2
deriving DecidableEq, Repr

/-- The argument bundle built at main.py lines 35–50. -/
def trellisArgs (r : TrellisRequest) : EngineArgs :=
  { images := r.images
    seed := r.seed
    randomize_seed := r.randomize_seed
    texture_size := r.texture_size
    mesh_simplify := r.mesh_simplify
    generate_color := r.generate_color
    generate_normal := r.generate_normal
    generate_model := r.generate_model
    save_gaussian_ply := r.save_gaussian_ply
    return_no_background := r.return_no_background
    ss_sampling_steps := r.ss_sampling_steps
    ss_guidance_strength := r.ss_guidance_strength
    slat_sampling_steps := r.slat_sampling_steps
    slat_guidance_strength := r.slat_guidance_strength }

/-- `POST /generate-3d` (`generate_3d`, main.py lines 32–53): call the
engine; return its result on success, raise
`HTTPException(500, str(e))` on failure.  The status store is passed
through untouched — the handler never accesses it. -/
def generate_3d (req : TrellisRequest) (engine : EngineArgs → Except String JObj)
    (st : RedisStore) : Result × RedisStore :=
  match engine (trellisArgs req) with
  | Except.ok out => (Result.ok out, st)
  | Except.error e => (Result.httpError 500 e, st)

/-! ### Helper lemmas and concrete fixtures -/

theorem storeGet_storeSet_self (st : RedisStore) (k : String) (p : JObj) (now ex t : Nat) :
    storeGet (storeSet st k p now ex) k t = if t < now + ex then some p else none := by
  simp [storeGet, storeSet, List.lookup]

/-- Under fault-free stores, every submission's trace begins with the
processing write immediately followed by the engine call on the
forwarded arguments. -/
theorem trace_shape (req : Generate3DRequest) (engine : EngineArgs → Except String JObj)
    (st : RedisStore) (now : Nat) :
    ∃ rest, (generate_3d_asset req engine noFaults st now).trace =
      Event.statusWrite processingRecord true :: Event.engineCall (engineArgs req) :: rest := by
  cases h : engine (engineArgs req) with
  | error e =>
      exact ⟨[Event.statusWrite (errorRecord e) true],
        by simp [generate_3d_asset, noFaults, h, handleException]⟩
  | ok out =>
      exact ⟨[Event.statusWrite (completeRecord out) true],
        by simp [generate_3d_asset, noFaults, h]⟩

/-- The spec's concrete scenario request: a single image, defaults elsewhere. -/
def cReq : Generate3DRequest := { images := ["http://a/img.png"] }

/-- The spec's concrete scenario output: a lone model file. -/
def cOut : JObj := [("model_file", JVal.str "m.glb")]

/-- An engine stub that always succeeds with `cOut`. -/
def cEngineOk : EngineArgs → Except String JObj := fun _ => Except.ok cOut

/-- A fault environment where the pre-call status write raises. -/
def procFault : Faults := ⟨some "redis unavailable", none, none⟩

/-! ### Claim theorems -/

/-- C1: when the engine call succeeds with output `out`, the submission
endpoint writes a status record with status `complete` and progress
100 whose `model_file`, `color_video` and `no_background_images`
fields are taken from `out`, and returns `out` itself to the caller. -/
theorem success_writes_complete_and_returns_output
    (req : Generate3DRequest) (engine : EngineArgs → Except String JObj)
    (st : RedisStore) (now : Nat) (out : JObj)
    (h : engine (engineArgs req) = Except.ok out) :
    (generate_3d_asset req engine noFaults st now).result = Result.ok out ∧
    storeGet (generate_3d_asset req engine noFaults st now).store STATUS_KEY now =
      some (completeRecord out) ∧
    jget (completeRecord out) "status" = some (JVal.str "complete") ∧
    jget (completeRecord out) "progress" = some (JVal.num 100) ∧
    jget (completeRecord out) "model_file" = some (jgetD out "model_file" JVal.null) ∧
    jget (completeRecord out) "color_video" = some (jgetD out "color_video" JVal.null) ∧
    jget (completeRecord out) "no_background_images" =
      some (jgetD out "no_background_images" (JVal.arr [])) := by
  refine ⟨?_, ?_, rfl, rfl, rfl, rfl, rfl⟩ <;>
    simp [generate_3d_asset, noFaults, h, set_status, storeGet_storeSet_self]

/-- C1 witness: the scenario request with the always-succeeding engine
stub, evaluated at time 0 on the empty store. -/
theorem success_writes_complete_and_returns_output_witness :
    (generate_3d_asset cReq cEngineOk noFaults [] 0).result = Result.ok cOut ∧
    storeGet (generate_3d_asset cReq cEngineOk noFaults [] 0).store STATUS_KEY 0 =
      some (completeRecord cOut) ∧
    jget (completeRecord cOut) "status" = some (JVal.str "complete") ∧
    jget (completeRecord cOut) "progress" = some (JVal.num 100) ∧
    jget (completeRecord cOut) "model_file" = some (jgetD cOut "model_file" JVal.null) ∧
    jget (completeRecord cOut) "color_video" = some (jgetD cOut "color_video" JVal.null) ∧
    jget (completeRecord cOut) "no_background_images" =
      some (jgetD cOut "no_background_images" (JVal.arr [])) :=
  success_writes_complete_and_returns_output cReq cEngineOk [] 0 cOut rfl

/-- C2: when the engine call fails with reason `R`, the submission
endpoint writes a status record with status `error`, progress 0 and
message `Generation failed: <R>`, and the caller receives HTTP 500
with detail `Failed to generate 3D asset: <R>`; no output is returned. -/
theorem failure_writes_error_and_returns_500
    (req : Generate3DRequest) (engine : EngineArgs → Except String JObj)
    (st : RedisStore) (now : Nat) (R : String)
    (h : engine (engineArgs req) = Except.error R) :
    (generate_3d_asset req engine noFaults st now).result =
      Result.httpError 500 (String.append "Failed to generate 3D asset: " R) ∧
    storeGet (generate_3d_asset req engine noFaults st now).store STATUS_KEY now =
      some (errorRecord R) ∧
    jget (errorRecord R) "status" = some (JVal.str "error") ∧
    jget (errorRecord R) "progress" = some (JVal.num 0) ∧
    jget (errorRecord R) "message" =
      some (JVal.str (String.append "Generation failed: " R)) ∧
    ∀ o, (generate_3d_asset req engine noFaults st now).result ≠ Result.ok o := by
  refine ⟨?_, ?_, rfl, rfl, rfl, ?_⟩
  · simp [generate_3d_asset, noFaults, h, handleException]
  · simp [generate_3d_asset, noFaults, h, handleException, set_status, storeGet_storeSet_self]
  · intro o
    simp [generate_3d_asset, noFaults, h, handleException]

/-- C2 witness: the scenario request against an engine stub raising
`rate limited`, evaluated at time 0 on the empty store. -/
theorem failure_writes_error_and_returns_500_witness :
    (generate_3d_asset cReq (fun _ => Except.error "rate limited") noFaults [] 0).result =
      Result.httpError 500 (String.append "Failed to generate 3D asset: " "rate limited") ∧
    storeGet (generate_3d_asset cReq (fun _ => Except.error "rate limited") noFaults [] 0).store
      STATUS_KEY 0 = some (errorRecord "rate limited") ∧
    jget (errorRecord "rate limited") "status" = some (JVal.str "error") ∧
    jget (errorRecord "rate limited") "progress" = some (JVal.num 0) ∧
    jget (errorRecord "rate limited") "message" =
      some (JVal.str (String.append "Generation failed: " "rate limited")) ∧
    ∀ o, (generate_3d_asset cReq (fun _ => Except.error "rate limited") noFaults [] 0).result ≠
      Result.ok o :=
  failure_writes_error_and_returns_500 cReq (fun _ => Except.error "rate limited")
    [] 0 "rate limited" rfl

/-- C3 counterexample: when the pre-call status write raises, the
engine is never invoked and the request's outcome differs from the
fault-free run of the same request — the write is not best-effort. -/
theorem pre_call_write_failure_changes_outcome :
    (generate_3d_asset cReq cEngineOk procFault [] 0).trace.any isEngineCall = false ∧
    (generate_3d_asset cReq cEngineOk procFault [] 0).result ≠
      (generate_3d_asset cReq cEngineOk noFaults [] 0).result := by
  refine ⟨rfl, ?_⟩
  intro hcontra
  simp [generate_3d_asset, procFault, noFaults, cEngineOk, handleException] at hcontra

/-- C3 amended: a failing pre-call status write (raising reason `R`)
aborts the submission — the engine is not invoked and the request is
handled by the error path: the error record for `R` is written (when
that write itself succeeds) and the caller receives HTTP 500 with
detail `Failed to generate 3D asset: <R>`. -/
theorem pre_call_write_failure_goes_to_error_path
    (req : Generate3DRequest) (engine : EngineArgs → Except String JObj)
    (st : RedisStore) (now : Nat) (R : String) (d : Option String) :
    (generate_3d_asset req engine ⟨some R, d, none⟩ st now).trace.any isEngineCall = false ∧
    (generate_3d_asset req engine ⟨some R, d, none⟩ st now).result =
      Result.httpError 500 (String.append "Failed to generate 3D asset: " R) ∧
    storeGet (generate_3d_asset req engine ⟨some R, d, none⟩ st now).store STATUS_KEY now =
      some (errorRecord R) := by
  refine ⟨?_, ?_, ?_⟩ <;>
    simp [generate_3d_asset, handleException, isEngineCall, set_status, storeGet_storeSet_self]

/-- C4 counterexample: on a concrete fault-free run no status write
ever carries the message `Submitting job…`; the pre-engine write is
`processingRecord`, whose message is `Submitting job to Trellis…`. -/
theorem processing_message_differs_from_claim :
    ((generate_3d_asset cReq cEngineOk noFaults [] 0).trace.all
      (fun ev => !(isWriteWithMessage ev "Submitting job…"))) = true ∧
    (generate_3d_asset cReq cEngineOk noFaults [] 0).trace.head? =
      some (Event.statusWrite processingRecord true) ∧
    jget processingRecord "message" = some (JVal.str "Submitting job to Trellis…") ∧
    jget processingRecord "message" ≠ some (JVal.str "Submitting job…") := by
  refine ⟨rfl, rfl, rfl, ?_⟩
  decide

/-- C4 amended: before the engine is invoked the submission endpoint
writes a status record with status `processing`, progress 5 and
message `Submitting job to Trellis…`; in the step sequence this write
strictly precedes the engine call. -/
theorem processing_write_precedes_engine_call
    (req : Generate3DRequest) (engine : EngineArgs → Except String JObj)
    (st : RedisStore) (now : Nat) :
    (∃ rest, (generate_3d_asset req engine noFaults st now).trace =
      Event.statusWrite processingRecord true :: Event.engineCall (engineArgs req) :: rest) ∧
    jget processingRecord "status" = some (JVal.str "processing") ∧
    jget processingRecord "progress" = some (JVal.num 5) ∧
    jget processingRecord "message" = some (JVal.str "Submitting job to Trellis…") :=
  ⟨trace_shape req engine st now, rfl, rfl, rfl⟩

/-- C5: a status write fully replaces the prior record at the single
fixed key and resets the expiry to 3600 seconds: whatever the prior
store state and whatever record `r1` was written before, after writing
`r2` at time `n2` the slot holds exactly `r2`, readable until
`n2 + 3600` and gone afterwards. -/
theorem status_write_overwrites_and_resets_expiry (st : RedisStore) (r1 r2 : JObj)
    (n1 n2 t : Nat) :
    storeGet (set_status (set_status st r1 n1) r2 n2) STATUS_KEY t =
      if t < n2 + 3600 then some r2 else none := by
  simp [set_status, storeGet_storeSet_self]

/-- C6: reading status when the slot is absent (in particular before
any submission) or after its 3600-second retention has elapsed yields
exactly the record with status `idle`, progress 0 and message
`No generation started`. -/
theorem read_idle_when_absent_or_expired :
    (∀ now, get_generation_status [] now = idleRecord) ∧
    (∀ (st : RedisStore) (p : JObj) (w k : Nat),
      get_generation_status (set_status st p w) (w + 3600 + k) = idleRecord) ∧
    jget idleRecord "status" = some (JVal.str "idle") ∧
    jget idleRecord "progress" = some (JVal.num 0) ∧
    jget idleRecord "message" = some (JVal.str "No generation started") := by
  refine ⟨?_, ?_, rfl, rfl, rfl⟩
  · intro now
    simp [get_generation_status, storeGet, List.lookup]
  · intro st p w k
    simp [get_generation_status, set_status, storeGet_storeSet_self]

/-- C7: the submission endpoint forwards all fourteen request fields
to the engine unmodified, with no cross-field validation — for every
request (including one with an empty image list or all flags false)
the engine is called on exactly the field-for-field copy of the
request. -/
theorem all_fields_forwarded_unmodified (req : Generate3DRequest) :
    (engineArgs req).images = req.images ∧
    (engineArgs req).seed = req.seed ∧
    (engineArgs req).randomize_seed = req.randomize_seed ∧
    (engineArgs req).texture_size = req.texture_size ∧
    (engineArgs req).mesh_simplify = req.mesh_simplify ∧
    (engineArgs req).generate_color = req.generate_color ∧
    (engineArgs req).generate_normal = req.generate_normal ∧
    (engineArgs req).generate_model = req.generate_model ∧
    (engineArgs req).save_gaussian_ply = req.save_gaussian_ply ∧
    (engineArgs req).return_no_background = req.return_no_background ∧
    (engineArgs req).ss_sampling_steps = req.ss_sampling_steps ∧
    (engineArgs req).ss_guidance_strength = req.ss_guidance_strength ∧
    (engineArgs req).slat_sampling_steps = req.slat_sampling_steps ∧
    (engineArgs req).slat_guidance_strength = req.slat_guidance_strength ∧
    ∀ (engine : EngineArgs → Except String JObj) (st : RedisStore) (now : Nat),
      ∃ rest, (generate_3d_asset req engine noFaults st now).trace =
        Event.statusWrite processingRecord true ::
          Event.engineCall (engineArgs req) :: rest := by
  refine ⟨rfl, rfl, rfl, rfl, rfl, rfl, rfl, rfl, rfl, rfl, rfl, rfl, rfl, rfl, ?_⟩
  intro engine st now
  exact trace_shape req engine st now

/-- C8: omitting any request field with a spec-stated default yields
exactly that default — a request carrying only `images` has seed 1337,
randomize_seed false, texture_size 2048, mesh_simplify 0.96,
save_gaussian_ply false, return_no_background true, ss_sampling_steps
26, slat_sampling_steps 26, ss_guidance_strength 8.0 and
slat_guidance_strength 3.2. -/
theorem omitted_fields_get_stated_defaults (l : List String) :
    ({ images := l } : Generate3DRequest).seed = 1337 ∧
    ({ images := l } : Generate3DRequest).randomize_seed = false ∧
    ({ images := l } : Generate3DRequest).texture_size = 2048 ∧
    ({ images := l } : Generate3DRequest).mesh_simplify = 0.96 ∧
    ({ images := l } : Generate3DRequest).save_gaussian_ply = false ∧
    ({ images := l } : Generate3DRequest).return_no_background = true ∧
    ({ images := l } : Generate3DRequest).ss_sampling_steps = 26 ∧
    ({ images := l } : Generate3DRequest).slat_sampling_steps = 26 ∧
    ({ images := l } : Generate3DRequest).ss_guidance_strength = 8.0 ∧
    ({ images := l } : Generate3DRequest).slat_guidance_strength = 3.2 :=
  ⟨rfl, rfl, rfl, rfl, rfl, rfl, rfl, rfl, rfl, rfl⟩

/-- C9: the status read endpoint returns the idle default whenever the
fetched value is falsy — an empty stored record reads the same as no
record — and returns the stored record verbatim exactly when it is
non-empty. -/
theorem falsy_status_reads_idle (st : RedisStore) (s : JObj) (w : Nat) :
    get_generation_status (set_status st [] w) w = idleRecord ∧
    (s ≠ [] → get_generation_status (set_status st s w) w = s) := by
  constructor
  · simp [get_generation_status, set_status, storeGet_storeSet_self]
  · intro hs
    cases s with
    | nil => exact absurd rfl hs
    | cons a as =>
        simp [get_generation_status, set_status, storeGet_storeSet_self]

/-- C9 witness: an empty record written at time 0 reads as the idle
default, while the non-empty `idleRecord` payload reads back verbatim. -/
theorem falsy_status_reads_idle_witness :
    get_generation_status (set_status [] [] 0) 0 = idleRecord ∧
    get_generation_status (set_status [] idleRecord 0) 0 = idleRecord :=
  ⟨(falsy_status_reads_idle [] idleRecord 0).1,
   (falsy_status_reads_idle [] idleRecord 0).2 (by decide)⟩

/-- C10: the secondary service variant's `POST /generate-3d` never
touches the status slot — the store is unchanged whether the engine
succeeds or fails — and on failure it raises HTTP 500 whose detail is
the raw reason alone, with no prefix. -/
theorem secondary_variant_frame_and_raw_detail (req : TrellisRequest)
    (engine : EngineArgs → Except String JObj) (st : RedisStore) :
    (generate_3d req engine st).2 = st ∧
    (∀ R, engine (trellisArgs req) = Except.error R →
      (generate_3d req engine st).1 = Result.httpError 500 R) ∧
    (∀ out, engine (trellisArgs req) = Except.ok out →
      (generate_3d req engine st).1 = Result.ok out) := by
  refine ⟨?_, ?_, ?_⟩
  · cases h : engine (trellisArgs req) <;> simp [generate_3d, h]
  · intro R h
    simp [generate_3d, h]
  · intro out h
    simp [generate_3d, h]

/-- The scenario request for the secondary variant. -/
def cTReq : TrellisRequest := { images := ["http://a/img.png"] }

/-- C10 witness: a failing engine stub leaves the (empty) store
untouched and yields HTTP 500 with the raw reason `rate limited`. -/
theorem secondary_variant_frame_and_raw_detail_witness :
    (generate_3d cTReq (fun _ => Except.error "rate limited") []).2 = ([] : RedisStore) ∧
    (generate_3d cTReq (fun _ => Except.error "rate limited") []).1 =
      Result.httpError 500 "rate limited" :=
  ⟨(secondary_variant_frame_and_raw_detail cTReq (fun _ => Except.error "rate limited") []).1,
   (secondary_variant_frame_and_raw_detail cTReq (fun _ => Except.error "rate limited")
      []).2.1 "rate limited" rfl⟩
